import Mathlib

/-!
# Verification of the serde-yaml event deserializer (`src/yaml/src/de.rs`)

A shallow embedding of the YAML event-stream deserializer: the event
collector (`Loader::on_event`), the cursor (`Deserializer` with `peek`,
`next`, `jump`), the scalar resolver (the scalar arm of
`Deserializer::visit` and `visit_untagged_str`), the collection consumer
(`CollectionVisitor`, `end_sequence`, `end_mapping`), optional decoding
(`deserialize_option`), tagged-union decoding (`deserialize_enum` with
`UnitVariantVisitor` / `VariantVisitor`), and the single-document entry
point (`from_str`, modulo the external text parser).

Modelling conventions:
* Machine integers (`i64`) are `Int` with explicit range checks against
  `-(2^63)` and `2^63 - 1`.
* `f64` values are represented by the source text that parsed as a float;
  whether a text parses follows Rust's `f64::from_str` grammar.
* A Rust `panic!` / failed `assert_eq!` (a process abort, not a
  recoverable `Err`) is modelled by the distinguished outcome
  `DError.panicAbort`, kept separate from every recoverable error.
* Serde error constructors `invalid_value` / `invalid_type` /
  `invalid_length` carry the `Display` rendering of their `Unexpected`
  argument and the expected-description string.
* Source positions (`Marker`) only decorate diagnostics and are elided.
-/

namespace Yaml

/-- Scalar styles of `yaml_rust::scanner::TScalarStyle`. The deserializer
only ever compares a style against `Plain`. -/
inductive TScalarStyle
  | Any
  | Plain
  | SingleQuoted
  | DoubleQuoted
  | Literal
  | Foldable
deriving DecidableEq, Repr

/-- The token optionally attached to a scalar event. `de.rs` only
distinguishes `TokenType::Tag(handle, suffix)`; every other
`yaml_rust::scanner::TokenType` variant behaves identically there and is
collapsed into `NonTag`. -/
inductive TokenType
  | Tag (handle suffix : String)
  | NonTag
deriving DecidableEq, Repr

/-- The internal `Event` enum of `de.rs` (markers elided). -/
inductive Event
  | alias (id : Nat)
  | scalar (v : String) (style : TScalarStyle) (tag : Option TokenType)
  | sequenceStart
  | sequenceEnd
  | mappingStart
  | mappingEnd
deriving DecidableEq, Repr

/-- Error outcomes of a decode. The first six model recoverable
`Result::Err` values of `error::Error` (serde constructors carry the
`Display` text of their `Unexpected` argument and the expected
description). `panicAbort` models a Rust `panic!` or failed `assert_eq!`:
a process abort, not an error value returned to the caller. `outOfFuel`
is an artifact of the fueled embedding of general recursion and never
corresponds to a program outcome. -/
inductive DError
  | endOfStream
  | moreThanOneDocument
  | invalidValue (unexpected expected : String)
  | invalidType (unexpected expected : String)
  | invalidLength (len : Nat) (expected : String)
  | unknownVariant (name : String)
  | panicAbort (msg : String)
  | outOfFuel
deriving DecidableEq, Repr

/-! ## Rust numeric / boolean parsing, as used by the resolver -/

/-- Smallest `i64` value. -/
def i64Min : Int := -(2 ^ 63)

/-- Largest `i64` value. -/
def i64Max : Int := 2 ^ 63 - 1

/-- Rust `char::to_digit(radix)`: `0-9`, `a-z`, `A-Z`, value below the
radix. -/
def digitVal? (radix : Nat) (c : Char) : Option Nat :=
  let d : Option Nat :=
    if '0' ≤ c ∧ c ≤ '9' then some (c.toNat - '0'.toNat)
    else if 'a' ≤ c ∧ c ≤ 'z' then some (c.toNat - 'a'.toNat + 10)
    else if 'A' ≤ c ∧ c ≤ 'Z' then some (c.toNat - 'A'.toNat + 10)
    else none
  match d with
  | some value => if value < radix then some value else none
  | none => none

/-- Value of a digit string in the given radix; `none` on any non-digit
character. -/
def digitsVal? (radix : Nat) : List Char → Nat → Option Nat
  | [], acc => some acc
  | c :: rest, acc =>
    match digitVal? radix c with
    | some d => digitsVal? radix rest (acc * radix + d)
    | none => none

/-- Value of a nonempty all-digit string, bounds-checked against `i64`.
Rust checks overflow digit by digit while accumulating; because the
magnitude only grows, this is equivalent to a final bounds check. -/
def i64Core? (radix : Nat) (neg : Bool) (ds : List Char) : Option Int :=
  if ds.isEmpty then none
  else
    match digitsVal? radix ds 0 with
    | some m =>
      let n : Int := if neg then -(m : Int) else (m : Int)
      if i64Min ≤ n ∧ n ≤ i64Max then some n else none
    | none => none

/-- Rust `i64::from_str_radix` (also `str::parse::<i64>()` at radix 10):
an optional leading `+` or `-` sign, then one or more digits of the
radix, rejecting values outside the `i64` range. -/
def fromStrRadix? (radix : Nat) (cs : List Char) : Option Int :=
  match cs with
  | '+' :: rest => i64Core? radix false rest
  | '-' :: rest => i64Core? radix true rest
  | _ => i64Core? radix false cs

/-- Rust `str::parse::<bool>()`: exactly `true` or `false`. -/
def parseBool? (v : String) : Option Bool :=
  if v = "true" then some true
  else if v = "false" then some false
  else none

/-- The decimal part of Rust's `f64::from_str` grammar:
`digits* [. digits*] [(e|E) [+|-] digits+]` with at least one digit in
the mantissa. -/
def parsesAsDecimal (cs : List Char) : Bool :=
  let intPart := cs.takeWhile Char.isDigit
  let rest1 := cs.dropWhile Char.isDigit
  let fracPart :=
    match rest1 with
    | '.' :: r => r.takeWhile Char.isDigit
    | _ => []
  let rest2 :=
    match rest1 with
    | '.' :: r => r.dropWhile Char.isDigit
    | _ => rest1
  if intPart.isEmpty && fracPart.isEmpty then false
  else
    match rest2 with
    | [] => true
    | e :: r =>
      if e = 'e' ∨ e = 'E' then
        let r' :=
          match r with
          | '+' :: t => t
          | '-' :: t => t
          | _ => r
        !r'.isEmpty && r'.all Char.isDigit
      else false

/-- Whether a text parses under Rust `str::parse::<f64>()`: an optional
sign, then either the decimal grammar or the special spellings `inf` /
`NaN`. -/
def parsesAsF64 (cs : List Char) : Bool :=
  match cs with
  | [] => false
  | _ =>
    let body :=
      match cs with
      | '+' :: r => r
      | '-' :: r => r
      | _ => cs
    parsesAsDecimal body || body = "inf".data || body = "NaN".data

/-! ## The scalar resolver -/

/-- The primitive a resolved scalar delivers to the acceptor: which
visitor method `de.rs` calls, and with what argument. A float carries
the source text that parsed (see the modelling conventions). -/
inductive Resolved
  | unitR
  | boolR (b : Bool)
  | intR (n : Int)
  | floatR (text : String)
  | strR (s : String)
deriving DecidableEq, Repr

/-- Rule 3 of the untagged inference: `v.starts_with("0x")` and the
remainder parses in base 16. -/
def hexRule (cs : List Char) : Option Int :=
  match cs with
  | '0' :: 'x' :: rest => fromStrRadix? 16 rest
  | _ => none

/-- Rule 4: `v.starts_with("0o")` and the remainder parses in base 8. -/
def octRule (cs : List Char) : Option Int :=
  match cs with
  | '0' :: 'o' :: rest => fromStrRadix? 8 rest
  | _ => none

/-- Rule 5: `v.starts_with('+')` and the remainder parses in base 10. -/
def plusRule (cs : List Char) : Option Int :=
  match cs with
  | '+' :: rest => fromStrRadix? 10 rest
  | _ => none

/-- `visit_untagged_str` of `de.rs`: the ordered inference for a plain
scalar with no interpretable tag, first match winning. -/
def visit_untagged_str (v : String) : Resolved :=
  if v = "~" ∨ v = "null" then .unitR
  else if v = "true" then .boolR true
  else if v = "false" then .boolR false
  else
    match hexRule v.data with
    | some n => .intR n
    | none =>
      match octRule v.data with
      | some n => .intR n
      | none =>
        match plusRule v.data with
        | some n => .intR n
        | none =>
          match fromStrRadix? 10 v.data with
          | some n => .intR n
          | none => if parsesAsF64 v.data then .floatR v else .strR v

/-- The spec's rule 6 as worded: the text parses as a base-10 integer
with only an optional leading minus (no leading `+`, which the spec
reserves to rule 5). -/
def specBase10Rule (cs : List Char) : Option Int :=
  match cs with
  | '+' :: _ => none
  | _ => fromStrRadix? 10 cs

/-- The spec's ordered inference rules, stated from the spec's words:
identical to `visit_untagged_str` except that rule 6 admits only an
optional leading minus. -/
def specUntaggedResolve (v : String) : Resolved :=
  if v = "~" ∨ v = "null" then .unitR
  else if v = "true" then .boolR true
  else if v = "false" then .boolR false
  else
    match hexRule v.data with
    | some n => .intR n
    | none =>
      match octRule v.data with
      | some n => .intR n
      | none =>
        match plusRule v.data with
        | some n => .intR n
        | none =>
          match specBase10Rule v.data with
          | some n => .intR n
          | none => if parsesAsF64 v.data then .floatR v else .strR v

/-- The scalar arm of `Deserializer::visit`: non-plain style is always a
string; a plain scalar with a `!!`-handled core tag parses strictly as
that kind, failing with `invalid_value`; any other explicit tag is a
string; no tag (or a non-`Tag` token) runs the untagged inference. -/
def resolveScalar (v : String) (style : TScalarStyle)
    (tag : Option TokenType) : Except DError Resolved :=
  if style ≠ .Plain then .ok (.strR v)
  else
    match tag with
    | some (.Tag handle suffix) =>
      if handle = "!!" then
        if suffix = "bool" then
          match parseBool? v with
          | some b => .ok (.boolR b)
          | none => .error (.invalidValue v "a boolean")
        else if suffix = "int" then
          match fromStrRadix? 10 v.data with
          | some n => .ok (.intR n)
          | none => .error (.invalidValue v "an integer")
        else if suffix = "float" then
          if parsesAsF64 v.data then .ok (.floatR v)
          else .error (.invalidValue v "a float")
        else if suffix = "null" then
          if v = "~" ∨ v = "null" then .ok .unitR
          else .error (.invalidValue v "null")
        else .ok (.strR v)
      else .ok (.strR v)
    | _ => .ok (visit_untagged_str v)

/-! ## Event collector (`Loader`) -/

/-- `yaml_rust::parser::Event` as received by `Loader::on_event`
(markers elided; anchorable nodes carry a producer-assigned anchor id). -/
inductive YamlEvent
  | Nothing
  | StreamStart
  | StreamEnd
  | DocumentStart
  | DocumentEnd
  | Alias (id : Nat)
  | Scalar (value : String) (style : TScalarStyle) (id : Nat) (tag : Option TokenType)
  | SequenceStart (id : Nat)
  | SequenceEnd
  | MappingStart (id : Nat)
  | MappingEnd
deriving DecidableEq, Repr

/-- The `Loader` state: flattened event list plus alias-id → position
index. -/
structure Loader where
  events : List Event
  aliases : List (Nat × Nat)
deriving DecidableEq, Repr

/-- `BTreeMap::insert`: a later insert shadows an earlier binding of the
same key (lookup below takes the first match in this list model). -/
def aliasInsert (aliases : List (Nat × Nat)) (id pos : Nat) : List (Nat × Nat) :=
  (id, pos) :: aliases

/-- `BTreeMap::get` on the alias index. -/
def aliasLookup? : List (Nat × Nat) → Nat → Option Nat
  | [], _ => none
  | (k, p) :: rest, id => if k = id then some p else aliasLookup? rest id

/-- `Loader::on_event`: framing events are discarded; an anchorable node
(scalar, sequence-start, mapping-start) records `id → events.len()`
*before* the normalized event is appended; every content event is
appended in order. -/
def on_event (l : Loader) (e : YamlEvent) : Loader :=
  match e with
  | .Nothing | .StreamStart | .StreamEnd | .DocumentStart | .DocumentEnd => l
  | .Alias id => { l with events := l.events ++ [.alias id] }
  | .Scalar v style id tag =>
    { events := l.events ++ [.scalar v style tag]
      aliases := aliasInsert l.aliases id l.events.length }
  | .SequenceStart id =>
    { events := l.events ++ [.sequenceStart]
      aliases := aliasInsert l.aliases id l.events.length }
  | .SequenceEnd => { l with events := l.events ++ [.sequenceEnd] }
  | .MappingStart id =>
    { events := l.events ++ [.mappingStart]
      aliases := aliasInsert l.aliases id l.events.length }
  | .MappingEnd => { l with events := l.events ++ [.mappingEnd] }

/-- Running the collector over a whole producer callback sequence. -/
def loadEvents (es : List YamlEvent) : Loader :=
  es.foldl on_event ⟨[], []⟩

/-! ## The cursor (`Deserializer`) -/

/-- The shared, read-only part of a `Deserializer`: the event list and
alias index. A cursor is a `Ctx` plus a position. -/
structure Ctx where
  events : List Event
  aliases : List (Nat × Nat)
deriving DecidableEq, Repr

/-- `Deserializer::peek`. -/
def peekE (ctx : Ctx) (pos : Nat) : Except DError Event :=
  match ctx.events[pos]? with
  | some e => .ok e
  | none => .error .endOfStream

/-- `Deserializer::next`: the peeked event together with the advanced
position. -/
def nextE (ctx : Ctx) (pos : Nat) : Except DError (Event × Nat) :=
  match ctx.events[pos]? with
  | some e => .ok (e, pos + 1)
  | none => .error .endOfStream

/-- `Deserializer::jump`: position of the anchored node, or — as the
source stands — a `panic!` (process abort), not a recoverable error. -/
def jump (ctx : Ctx) (id : Nat) : Except DError Nat :=
  match aliasLookup? ctx.aliases id with
  | some p => .ok p
  | none => .error (.panicAbort ("unresolved alias: " ++ toString id))

/-! ## Values, targets (acceptors), and consumer-side delivery -/

/-- The decoded value a target constructs. `float` carries the source
text (see the modelling conventions); `noneV`/`someV` are the results of
optional decoding; `variant` is a tagged-union result, its content
`none` for a unit variant. -/
inductive Value
  | unit
  | bool (b : Bool)
  | int (n : Int)
  | float (text : String)
  | str (s : String)
  | seq (elems : List Value)
  | map (entries : List (Value × Value))
  | noneV
  | someV (inner : Value)
  | variant (name : String) (content : Option Value)

/-- Content shape of one tagged-union variant (glossary: none, single
value, fixed tuple, or named fields). -/
inductive VariantKind
  | unitV
  | newtypeV
  | tupleV (n : Nat)
  | structV
deriving DecidableEq, Repr

/-- Modelled from the spec: the consumer contract (§6), the per-target
capability set the core drives. `anyA` is a self-describing target
(also serde's `IgnoredAny`, used for draining): it accepts every
primitive and pulls collections to exhaustion. `unitA` accepts only
null. `tupleA n` is a fixed-arity sequence target pulling exactly `n`
elements. `optionA`/`enumA` route to `deserialize_option` /
`deserialize_enum`. -/
inductive Acceptor
  | anyA
  | unitA
  | tupleA (n : Nat)
  | optionA (inner : Acceptor)
  | enumA (variants : List (String × VariantKind))
deriving DecidableEq, Repr

/-- The `Display` rendering serde's `Unexpected` would give each
resolved primitive, used in consumer-side `invalid_type` errors. -/
def Resolved.kindName : Resolved → String
  | .unitR => "unit value"
  | .boolR _ => "boolean"
  | .intR _ => "integer"
  | .floatR _ => "floating point"
  | .strR _ => "string"

/-- Modelled from the spec: the expected-kind description a target's
visitor reports in its own `invalid_type` errors. -/
def Acceptor.expectedDesc : Acceptor → String
  | .anyA => "any value"
  | .unitA => "unit"
  | .tupleA n => "a tuple of size " ++ toString n
  | .optionA _ => "option"
  | .enumA _ => "enum"

/-- Modelled from the spec: delivering a resolved primitive to the
target's matching accept method (§6). The self-describing target
accepts everything; the unit target accepts only null; a fixed-arity
sequence target rejects every primitive with its own `invalid_type`.
Option and enum targets are dispatched before `visit` and never receive
a primitive here. -/
def deliverResolved (acc : Acceptor) (r : Resolved) : Except DError Value :=
  match acc with
  | .anyA =>
    .ok (match r with
      | .unitR => .unit
      | .boolR b => .bool b
      | .intR n => .int n
      | .floatR t => .float t
      | .strR s => .str s)
  | .unitA =>
    match r with
    | .unitR => .ok .unit
    | r => .error (.invalidType r.kindName "unit")
  | acc => .error (.invalidType r.kindName acc.expectedDesc)

/-- First-match lookup of a variant name in the target's variant list. -/
def variantLookup? : List (String × VariantKind) → String → Option VariantKind
  | [], _ => none
  | (s, k) :: rest, name => if s = name then some k else variantLookup? rest name

/-- `ExpectedSeq` of `end_sequence`: "sequence of N element(s)",
singular for N = 1. -/
def seqExpected (n : Nat) : String :=
  if n = 1 then "sequence of 1 element"
  else "sequence of " ++ toString n ++ " elements"

/-- `ExpectedMap` of `end_mapping`: "map containing N entrie(s)",
singular for N = 1. -/
def mapExpected (n : Nat) : String :=
  if n = 1 then "map containing 1 entry"
  else "map containing " ++ toString n ++ " entries"

/-- The scalar arm of `deserialize_option`, deciding "some" (`true`)
versus "none" (`false`) or an error: non-plain style is always some; an
explicit `!!null` tag requires text `~`/`null` (other text is
`invalid_value`, not some); untagged plain text is none exactly for
`~`/`null`. -/
def optionScalarIsSome (v : String) (style : TScalarStyle)
    (tag : Option TokenType) : Except DError Bool :=
  if style ≠ .Plain then .ok true
  else
    match tag with
    | some (.Tag handle suffix) =>
      if handle = "!!" && suffix = "null" then
        if v = "~" ∨ v = "null" then .ok false
        else .error (.invalidValue v "null")
      else .ok true
    | _ => .ok ((v != "~") && (v != "null"))

/-! ## The recursive decoder

A fueled embedding of the mutually recursive decode: every function
consumes one unit of fuel per call, returning `DError.outOfFuel` when
exhausted; each returns its value together with the cursor position
after the consumed events. -/

mutual

/-- Serde's dispatch into `de.rs`: an option target enters
`deserialize_option`, an enum target `deserialize_enum`, every other
target the blanket `deserialize` (which peeks for the marker and runs
`visit`; markers are elided here). -/
def deserializeD (fuel : Nat) (ctx : Ctx) (pos : Nat) (acc : Acceptor) :
    Except DError (Value × Nat) :=
  match fuel with
  | 0 => .error .outOfFuel
  | fuel + 1 =>
    match acc with
    | .optionA inner => deserialize_option fuel ctx pos inner
    | .enumA variants => deserialize_enum fuel ctx pos variants
    | acc => visit fuel ctx pos acc
termination_by structural fuel

/-- `Deserializer::visit`: consume one event and dispatch on it. -/
def visit (fuel : Nat) (ctx : Ctx) (pos : Nat) (acc : Acceptor) :
    Except DError (Value × Nat) :=
  match fuel with
  | 0 => .error .outOfFuel
  | fuel + 1 =>
    match nextE ctx pos with
    | .error e => .error e
    | .ok (ev, pos1) =>
      match ev with
      | .alias i =>
        match jump ctx i with
        | .error e => .error e
        | .ok target =>
          match deserializeD fuel ctx target acc with
          | .error e => .error e
          | .ok (v, _) => .ok (v, pos1)
      | .scalar v style tag =>
        match resolveScalar v style tag with
        | .error e => .error e
        | .ok r =>
          match deliverResolved acc r with
          | .error e => .error e
          | .ok value => .ok (value, pos1)
      | .sequenceStart =>
        match acc with
        | .anyA =>
          match pullSeqAll fuel ctx pos1 0 with
          | .error e => .error e
          | .ok (vals, len, p) =>
            match end_sequence fuel ctx p len with
            | .error e => .error e
            | .ok p' => .ok (.seq vals, p')
        | .tupleA n =>
          match pullSeqN fuel ctx pos1 n 0 with
          | .error e => .error e
          | .ok (vals, p) =>
            match end_sequence fuel ctx p n with
            | .error e => .error e
            | .ok p' => .ok (.seq vals, p')
        | acc => .error (.invalidType "sequence" acc.expectedDesc)
      | .mappingStart =>
        match acc with
        | .anyA =>
          match pullMapAll fuel ctx pos1 0 with
          | .error e => .error e
          | .ok (entries, len, p) =>
            match end_mapping fuel ctx p len with
            | .error e => .error e
            | .ok p' => .ok (.map entries, p')
        | acc => .error (.invalidType "map" acc.expectedDesc)
      | .sequenceEnd => .error (.panicAbort "unexpected end of sequence")
      | .mappingEnd => .error (.panicAbort "unexpected end of mapping")
termination_by structural fuel

/-- A growable target's pull loop (`CollectionVisitor` as
`SeqVisitor`, driven until exhaustion): peek; `SequenceEnd` stops
without consuming; otherwise decode one element recursively and count
it. Returns (elements, count, position at the end marker). -/
def pullSeqAll (fuel : Nat) (ctx : Ctx) (pos : Nat) (len : Nat) :
    Except DError (List Value × Nat × Nat) :=
  match fuel with
  | 0 => .error .outOfFuel
  | fuel + 1 =>
    match peekE ctx pos with
    | .error e => .error e
    | .ok .sequenceEnd => .ok ([], len, pos)
    | .ok _ =>
      match deserializeD fuel ctx pos .anyA with
      | .error e => .error e
      | .ok (v, p) =>
        match pullSeqAll fuel ctx p (len + 1) with
        | .error e => .error e
        | .ok (vs, total, p') => .ok (v :: vs, total, p')
termination_by structural fuel

/-- Modelled from the spec: a fixed-arity target's pull loop (§6, §8).
It pulls exactly `n` elements through the same `SeqVisitor`; if the
consumer sees exhaustion after `i < n` elements it raises its own
`invalid_length(i, ...)`. -/
def pullSeqN (fuel : Nat) (ctx : Ctx) (pos : Nat) (n : Nat) (i : Nat) :
    Except DError (List Value × Nat) :=
  match fuel with
  | 0 => .error .outOfFuel
  | fuel + 1 =>
    if i = n then .ok ([], pos)
    else
      match peekE ctx pos with
      | .error e => .error e
      | .ok .sequenceEnd =>
        .error (.invalidLength i ("a tuple of size " ++ toString n))
      | .ok _ =>
        match deserializeD fuel ctx pos .anyA with
        | .error e => .error e
        | .ok (v, p) =>
          match pullSeqN fuel ctx p n (i + 1) with
          | .error e => .error e
          | .ok (vs, p') => .ok (v :: vs, p')
termination_by structural fuel

/-- A growable mapping target's pull loop (`CollectionVisitor` as
`MapVisitor`): peek; `MappingEnd` stops without consuming; otherwise
decode a key then a value recursively, counting one entry per key. -/
def pullMapAll (fuel : Nat) (ctx : Ctx) (pos : Nat) (len : Nat) :
    Except DError (List (Value × Value) × Nat × Nat) :=
  match fuel with
  | 0 => .error .outOfFuel
  | fuel + 1 =>
    match peekE ctx pos with
    | .error e => .error e
    | .ok .mappingEnd => .ok ([], len, pos)
    | .ok _ =>
      match deserializeD fuel ctx pos .anyA with
      | .error e => .error e
      | .ok (k, p1) =>
        match deserializeD fuel ctx p1 .anyA with
        | .error e => .error e
        | .ok (v, p2) =>
          match pullMapAll fuel ctx p2 (len + 1) with
          | .error e => .error e
          | .ok (es, total, p') => .ok ((k, v) :: es, total, p')
termination_by structural fuel

/-- The drain loop of `end_sequence`: remaining elements are consumed
through the same `SeqVisitor` with an ignore target until the peeked
event is `SequenceEnd`. Returns (total count, position of the end
marker). -/
def drainSeq (fuel : Nat) (ctx : Ctx) (pos : Nat) (len : Nat) :
    Except DError (Nat × Nat) :=
  match fuel with
  | 0 => .error .outOfFuel
  | fuel + 1 =>
    match peekE ctx pos with
    | .error e => .error e
    | .ok .sequenceEnd => .ok (len, pos)
    | .ok _ =>
      match deserializeD fuel ctx pos .anyA with
      | .error e => .error e
      | .ok (_, p) => drainSeq fuel ctx p (len + 1)
termination_by structural fuel

/-- The drain loop of `end_mapping` (key then value per iteration). -/
def drainMap (fuel : Nat) (ctx : Ctx) (pos : Nat) (len : Nat) :
    Except DError (Nat × Nat) :=
  match fuel with
  | 0 => .error .outOfFuel
  | fuel + 1 =>
    match peekE ctx pos with
    | .error e => .error e
    | .ok .mappingEnd => .ok (len, pos)
    | .ok _ =>
      match deserializeD fuel ctx pos .anyA with
      | .error e => .error e
      | .ok (_, p1) =>
        match deserializeD fuel ctx p1 .anyA with
        | .error e => .error e
        | .ok (_, p2) => drainMap fuel ctx p2 (len + 1)
termination_by structural fuel

/-- `Deserializer::end_sequence`: drain remaining elements, consume the
event that must be `SequenceEnd` (`assert_eq!` — a failed assertion is
an abort), then compare the total count against the count the acceptor
consumed, failing `invalid_length(total, "sequence of len element(s)")`
on mismatch. Returns the position after the consumed end marker. -/
def end_sequence (fuel : Nat) (ctx : Ctx) (pos : Nat) (len : Nat) :
    Except DError Nat :=
  match fuel with
  | 0 => .error .outOfFuel
  | fuel + 1 =>
    match drainSeq fuel ctx pos len with
    | .error e => .error e
    | .ok (total, p) =>
      match nextE ctx p with
      | .error e => .error e
      | .ok (e, p') =>
        if e ≠ .sequenceEnd then .error (.panicAbort "assertion failed")
        else if total = len then .ok p'
        else .error (.invalidLength total (seqExpected len))
termination_by structural fuel

/-- `Deserializer::end_mapping`, symmetric to `end_sequence` with the
"map containing N entrie(s)" description. -/
def end_mapping (fuel : Nat) (ctx : Ctx) (pos : Nat) (len : Nat) :
    Except DError Nat :=
  match fuel with
  | 0 => .error .outOfFuel
  | fuel + 1 =>
    match drainMap fuel ctx pos len with
    | .error e => .error e
    | .ok (total, p) =>
      match nextE ctx p with
      | .error e => .error e
      | .ok (e, p') =>
        if e ≠ .mappingEnd then .error (.panicAbort "assertion failed")
        else if total = len then .ok p'
        else .error (.invalidLength total (mapExpected len))
termination_by structural fuel

/-- `Deserializer::deserialize_option`: an alias is followed first (the
original cursor advancing only past the alias node); a scalar is
classified by `optionScalarIsSome`; a sequence or mapping start is
always some. "Some" decodes the inner value starting at the *same*
position (no event pre-consumed); "none" consumes the single scalar. -/
def deserialize_option (fuel : Nat) (ctx : Ctx) (pos : Nat)
    (inner : Acceptor) : Except DError (Value × Nat) :=
  match fuel with
  | 0 => .error .outOfFuel
  | fuel + 1 =>
    match peekE ctx pos with
    | .error e => .error e
    | .ok (.alias i) =>
      match jump ctx i with
      | .error e => .error e
      | .ok target =>
        match deserialize_option fuel ctx target inner with
        | .error e => .error e
        | .ok (v, _) => .ok (v, pos + 1)
    | .ok (.scalar v style tag) =>
      match optionScalarIsSome v style tag with
      | .error e => .error e
      | .ok true =>
        match deserializeD fuel ctx pos inner with
        | .error e => .error e
        | .ok (v, p) => .ok (.someV v, p)
      | .ok false => .ok (.noneV, pos + 1)
    | .ok .sequenceStart | .ok .mappingStart =>
      match deserializeD fuel ctx pos inner with
      | .error e => .error e
      | .ok (v, p) => .ok (.someV v, p)
    | .ok .sequenceEnd => .error (.panicAbort "unexpected end of sequence")
    | .ok .mappingEnd => .error (.panicAbort "unexpected end of mapping")
termination_by structural fuel

/-- `Deserializer::deserialize_enum`: an alias is followed first; a bare
scalar enters `UnitVariantVisitor` (variant name read from the scalar,
no carried data allowed); `MappingStart` is consumed, the single key
read as the variant name, the content decoded by shape, then
`end_mapping(1)` required; a sequence fails `invalid_type`. -/
def deserialize_enum (fuel : Nat) (ctx : Ctx) (pos : Nat)
    (variants : List (String × VariantKind)) : Except DError (Value × Nat) :=
  match fuel with
  | 0 => .error .outOfFuel
  | fuel + 1 =>
    match peekE ctx pos with
    | .error e => .error e
    | .ok (.alias i) =>
      match jump ctx i with
      | .error e => .error e
      | .ok target =>
        match deserialize_enum fuel ctx target variants with
        | .error e => .error e
        | .ok (v, _) => .ok (v, pos + 1)
    | .ok (.scalar _ _ _) =>
      match deserializeD fuel ctx pos .anyA with
      | .error e => .error e
      | .ok (nv, p) =>
        match nv with
        | .str s =>
          match variantLookup? variants s with
          | none => .error (.unknownVariant s)
          | some .unitV => .ok (.variant s none, p)
          | some .newtypeV => .error (.invalidType "unit variant" "newtype variant")
          | some (.tupleV _) => .error (.invalidType "unit variant" "tuple variant")
          | some .structV => .error (.invalidType "unit variant" "struct variant")
        | _ => .error (.invalidType "non-string scalar" "variant identifier")
    | .ok .mappingStart =>
      match deserializeD fuel ctx (pos + 1) .anyA with
      | .error e => .error e
      | .ok (nv, p1) =>
        match nv with
        | .str s =>
          match variantLookup? variants s with
          | none => .error (.unknownVariant s)
          | some k =>
            match variantContent fuel ctx p1 k with
            | .error e => .error e
            | .ok (content, p2) =>
              match end_mapping fuel ctx p2 1 with
              | .error e => .error e
              | .ok p3 => .ok (.variant s content, p3)
        | _ => .error (.invalidType "non-string scalar" "variant identifier")
    | .ok .sequenceStart =>
      .error (.invalidType "sequence" "string or singleton map")
    | .ok .sequenceEnd => .error (.panicAbort "unexpected end of sequence")
    | .ok .mappingEnd => .error (.panicAbort "unexpected end of mapping")
termination_by structural fuel

/-- `VariantVisitor`'s content decode in the singleton-mapping form: a
unit variant decodes `()` (null required), a newtype variant the inner
value, a tuple variant a fixed-arity sequence, a struct variant its
named fields (modelled as a self-describing mapping pull, §6). -/
def variantContent (fuel : Nat) (ctx : Ctx) (pos : Nat) (k : VariantKind) :
    Except DError (Option Value × Nat) :=
  match fuel with
  | 0 => .error .outOfFuel
  | fuel + 1 =>
    match k with
    | .unitV =>
      match deserializeD fuel ctx pos .unitA with
      | .error e => .error e
      | .ok (_, p) => .ok (none, p)
    | .newtypeV =>
      match deserializeD fuel ctx pos .anyA with
      | .error e => .error e
      | .ok (v, p) => .ok (some v, p)
    | .tupleV n =>
      match deserializeD fuel ctx pos (.tupleA n) with
      | .error e => .error e
      | .ok (v, p) => .ok (some v, p)
    | .structV =>
      match deserializeD fuel ctx pos .anyA with
      | .error e => .error e
      | .ok (v, p) => .ok (some v, p)

termination_by structural fuel
end

/-- The body of `from_str` after the external text parser has filled the
`Loader` (scanning/parsing is outside the core): an empty event list
fails EndOfStream; otherwise one value is decoded from position 0 and
the cursor must have consumed every event, else MoreThanOneDocument. -/
def from_str_events (fuel : Nat) (events : List Event)
    (aliases : List (Nat × Nat)) (acc : Acceptor) : Except DError Value :=
  if events.isEmpty then .error .endOfStream
  else
    match deserializeD fuel ⟨events, aliases⟩ 0 acc with
    | .error e => .error e
    | .ok (t, pos) =>
      if pos = events.length then .ok t else .error .moreThanOneDocument

/-- A producer callback sequence for a document that anchors one scalar
node and references it twice: `[&a x, *a, *a]`. -/
def anchorTwiceDoc : List YamlEvent :=
  [.StreamStart, .DocumentStart, .SequenceStart 0,
   .Scalar "x" .Plain 1 none, .Alias 1, .Alias 1,
   .SequenceEnd, .DocumentEnd, .StreamEnd]

/-! ## Helper lemmas -/

/-- A leading non-digit makes the digit-string value fail. -/
lemma i64Core_cons_nonDigit (radix : Nat) (neg : Bool) (c : Char)
    (cs : List Char) (h : digitVal? radix c = none) :
    i64Core? radix neg (c :: cs) = none := by
  simp [i64Core?, digitsVal?, h]

/-- If signed parsing fails, so does parsing the same text unsigned: a
leading sign character is not a digit, and otherwise the two coincide. -/
lemma fromStrRadix_none (radix : Nat) (cs : List Char)
    (h : fromStrRadix? radix cs = none) : i64Core? radix false cs = none := by
  unfold fromStrRadix? at h
  split at h
  · exact i64Core_cons_nonDigit radix false '+' _ rfl
  · exact i64Core_cons_nonDigit radix false '-' _ rfl
  · exact h

/-- Where the spec's rule 6 (optional leading minus only) could differ
from the code's `parse::<i64>` (which also admits a leading plus), rule
5 has already fired: if rule 5 failed, the two agree. -/
lemma base10_agree (cs : List Char) (h : plusRule cs = none) :
    fromStrRadix? 10 cs = specBase10Rule cs := by
  unfold specBase10Rule
  split
  · rename_i rest
    simp only [plusRule] at h
    show i64Core? 10 false rest = none
    exact fromStrRadix_none 10 rest h
  · rfl

/-- The code's untagged inference agrees with the spec's rule list
pointwise (the only textual difference, rule 6's treatment of a leading
plus, is masked by rule 5). -/
lemma untagged_eq_spec (v : String) : visit_untagged_str v = specUntaggedResolve v := by
  unfold visit_untagged_str specUntaggedResolve
  rcases h : plusRule v.data with _ | n
  · rw [base10_agree v.data h]
  · simp [h]

/-- A successful sequence drain stops exactly at a `SequenceEnd` and
never shrinks the count. -/
lemma drainSeq_ok (ctx : Ctx) :
    ∀ fuel pos len total p, drainSeq fuel ctx pos len = .ok (total, p) →
      peekE ctx p = .ok .sequenceEnd ∧ len ≤ total := by
  intro fuel
  induction fuel with
  | zero => intro pos len total p h; simp [drainSeq] at h
  | succ f ih =>
    intro pos len total p h
    rw [drainSeq] at h
    split at h
    · simp at h
    · rename_i hpk
      simp only [Except.ok.injEq, Prod.mk.injEq] at h
      obtain ⟨h1, h2⟩ := h
      subst h1; subst h2
      exact ⟨hpk, Nat.le_refl _⟩
    · split at h
      · simp at h
      · exact (ih _ _ total p h).imp id Nat.le_of_succ_le

/-- A successful mapping drain stops exactly at a `MappingEnd` and never
shrinks the count. -/
lemma drainMap_ok (ctx : Ctx) :
    ∀ fuel pos len total p, drainMap fuel ctx pos len = .ok (total, p) →
      peekE ctx p = .ok .mappingEnd ∧ len ≤ total := by
  intro fuel
  induction fuel with
  | zero => intro pos len total p h; simp [drainMap] at h
  | succ f ih =>
    intro pos len total p h
    rw [drainMap] at h
    split at h
    · simp at h
    · rename_i hpk
      simp only [Except.ok.injEq, Prod.mk.injEq] at h
      obtain ⟨h1, h2⟩ := h
      subst h1; subst h2
      exact ⟨hpk, Nat.le_refl _⟩
    · split at h
      · simp at h
      · split at h
        · simp at h
        · exact (ih _ _ total p h).imp id Nat.le_of_succ_le

/-- A successful peek is a lookup. -/
lemma peekE_get (ctx : Ctx) (p : Nat) (e : Event) (h : peekE ctx p = .ok e) :
    ctx.events[p]? = some e := by
  unfold peekE at h
  rcases hg : ctx.events[p]? with _ | e' <;> rw [hg] at h
  · simp at h
  · simp only [Except.ok.injEq] at h
    rw [h]

/-- `end_sequence` after a successful drain: the end marker is consumed
and the outcome is decided by the count comparison alone. -/
lemma end_sequence_of_drain (ctx : Ctx) (fuel pos len total p : Nat)
    (hd : drainSeq fuel ctx pos len = .ok (total, p)) :
    end_sequence (fuel + 1) ctx pos len =
      if total = len then .ok (p + 1)
      else .error (.invalidLength total (seqExpected len)) := by
  have hpk := (drainSeq_ok ctx fuel pos len total p hd).1
  have hget := peekE_get ctx p .sequenceEnd hpk
  rw [end_sequence, hd]
  simp [nextE, hget]

/-- `end_mapping` after a successful drain, symmetric to
`end_sequence_of_drain`. -/
lemma end_mapping_of_drain (ctx : Ctx) (fuel pos len total p : Nat)
    (hd : drainMap fuel ctx pos len = .ok (total, p)) :
    end_mapping (fuel + 1) ctx pos len =
      if total = len then .ok (p + 1)
      else .error (.invalidLength total (mapExpected len)) := by
  have hpk := (drainMap_ok ctx fuel pos len total p hd).1
  have hget := peekE_get ctx p .mappingEnd hpk
  rw [end_mapping, hd]
  simp [nextE, hget]

/-- A scalar classified "some" decodes the inner value from the same
position. -/
lemma opt_scalar_some (fuel : Nat) (ctx : Ctx) (pos : Nat) (inner : Acceptor)
    (v : String) (style : TScalarStyle) (tag : Option TokenType)
    (hpk : peekE ctx pos = .ok (.scalar v style tag))
    (hs : optionScalarIsSome v style tag = .ok true) :
    deserialize_option (fuel + 1) ctx pos inner =
      match deserializeD fuel ctx pos inner with
      | .error e => .error e
      | .ok (v', p) => .ok (.someV v', p) := by
  rw [deserialize_option, hpk]
  simp [hs]

/-- A scalar classified "none" is consumed and yields the none value. -/
lemma opt_scalar_none (fuel : Nat) (ctx : Ctx) (pos : Nat) (inner : Acceptor)
    (v : String) (style : TScalarStyle) (tag : Option TokenType)
    (hpk : peekE ctx pos = .ok (.scalar v style tag))
    (hs : optionScalarIsSome v style tag = .ok false) :
    deserialize_option (fuel + 1) ctx pos inner = .ok (.noneV, pos + 1) := by
  rw [deserialize_option, hpk]
  simp [hs]

/-- A sequence or mapping start in optional position is "some", decoded
from the same position. -/
lemma opt_start_some (fuel : Nat) (ctx : Ctx) (pos : Nat) (inner : Acceptor)
    (ev : Event) (hpk : peekE ctx pos = .ok ev)
    (hev : ev = .sequenceStart ∨ ev = .mappingStart) :
    deserialize_option (fuel + 1) ctx pos inner =
      match deserializeD fuel ctx pos inner with
      | .error e => .error e
      | .ok (v', p) => .ok (.someV v', p) := by
  rcases hev with h | h <;> subst h <;> rw [deserialize_option, hpk]

/-- An alias in optional position is followed first; the original cursor
advances only past the alias node. -/
lemma opt_alias (fuel : Nat) (ctx : Ctx) (pos : Nat) (inner : Acceptor) (i : Nat)
    (hpk : peekE ctx pos = .ok (.alias i)) :
    deserialize_option (fuel + 1) ctx pos inner =
      match jump ctx i with
      | .error e => .error e
      | .ok t =>
        match deserialize_option fuel ctx t inner with
        | .error e => .error e
        | .ok (v', _) => .ok (v', pos + 1) := by
  rw [deserialize_option, hpk]

/-- A sequence in enum position is an `invalid_type` error. -/
lemma enum_seq_invalid (fuel : Nat) (ctx : Ctx) (pos : Nat)
    (variants : List (String × VariantKind))
    (hpk : peekE ctx pos = .ok .sequenceStart) :
    deserialize_enum (fuel + 1) ctx pos variants =
      .error (.invalidType "sequence" "string or singleton map") := by
  rw [deserialize_enum, hpk]

/-- `visit` on an alias event: decode at the jump target, return with
the original cursor advanced past only the alias node. -/
lemma visit_alias (fuel : Nat) (ctx : Ctx) (pos : Nat) (acc : Acceptor) (i target : Nat)
    (hpk : ctx.events[pos]? = some (.alias i))
    (hlk : aliasLookup? ctx.aliases i = some target) :
    visit (fuel + 1) ctx pos acc =
      match deserializeD fuel ctx target acc with
      | .error e => .error e
      | .ok (v, _) => .ok (v, pos + 1) := by
  rw [visit]
  simp [nextE, hpk, jump, hlk]

/-- Unconsumed events after a successful decode fail the entry point. -/
lemma from_str_leftover (fuel : Nat) (events : List Event)
    (aliases : List (Nat × Nat)) (acc : Acceptor) (v : Value) (pos : Nat)
    (hdes : deserializeD fuel ⟨events, aliases⟩ 0 acc = .ok (v, pos))
    (hlt : pos < events.length) :
    from_str_events fuel events aliases acc = .error .moreThanOneDocument := by
  have hne : events ≠ [] := by
    rintro rfl
    simp at hlt
  rw [from_str_events]
  simp [hne, hdes, Nat.ne_of_lt hlt]

/-- A bare scalar naming a unit variant decodes to that variant with no
content. -/
lemma enum_bare_unit (fuel : Nat) (s : String) (h : visit_untagged_str s = .strR s) :
    deserializeD (fuel + 4) ⟨[.scalar s .Plain none], []⟩ 0 (.enumA [(s, .unitV)]) =
      .ok (.variant s none, 1) := by
  simp [deserializeD, deserialize_enum, visit, nextE, peekE, resolveScalar,
    deliverResolved, variantLookup?, h]

/-- A bare scalar naming a newtype variant fails `invalid_type`. -/
lemma enum_bare_newtype (fuel : Nat) (s : String) (h : visit_untagged_str s = .strR s) :
    deserializeD (fuel + 4) ⟨[.scalar s .Plain none], []⟩ 0 (.enumA [(s, .newtypeV)]) =
      .error (.invalidType "unit variant" "newtype variant") := by
  simp [deserializeD, deserialize_enum, visit, nextE, peekE, resolveScalar,
    deliverResolved, variantLookup?, h]

/-- A bare scalar naming a tuple variant fails `invalid_type`. -/
lemma enum_bare_tuple (fuel n : Nat) (s : String) (h : visit_untagged_str s = .strR s) :
    deserializeD (fuel + 4) ⟨[.scalar s .Plain none], []⟩ 0 (.enumA [(s, .tupleV n)]) =
      .error (.invalidType "unit variant" "tuple variant") := by
  simp [deserializeD, deserialize_enum, visit, nextE, peekE, resolveScalar,
    deliverResolved, variantLookup?, h]

/-- A bare scalar naming a struct variant fails `invalid_type`. -/
lemma enum_bare_struct (fuel : Nat) (s : String) (h : visit_untagged_str s = .strR s) :
    deserializeD (fuel + 4) ⟨[.scalar s .Plain none], []⟩ 0 (.enumA [(s, .structV)]) =
      .error (.invalidType "unit variant" "struct variant") := by
  simp [deserializeD, deserialize_enum, visit, nextE, peekE, resolveScalar,
    deliverResolved, variantLookup?, h]

/-! ## Claim theorems -/

/-- C1: the claim says following an absent alias id fails with a
recoverable UnresolvedAlias error result; the code instead executes
`panic!("unresolved alias: ...")` — a process abort. Evaluated at the
failing input (a lone `Alias(7)` with an empty AliasIndex), `jump`, the
node decode, and the entry point all end in the abort outcome, not a
recoverable error value. -/
theorem C1_unresolved_alias_aborts :
    jump ⟨[.alias 7], []⟩ 7 = .error (.panicAbort "unresolved alias: 7")
    ∧ deserializeD 10 ⟨[.alias 7], []⟩ 0 .anyA = .error (.panicAbort "unresolved alias: 7")
    ∧ from_str_events 10 [.alias 7] [] .anyA = .error (.panicAbort "unresolved alias: 7") :=
  ⟨rfl, rfl, rfl⟩

/-- C2: a plain scalar with no interpretable tag resolves by the ordered
inference rules, first match winning — the code's `visit_untagged_str`
agrees pointwise with the spec's rule list (`specUntaggedResolve`), and
the literal examples resolve as claimed: "123" to integer 123, "0x1A" to
26, "0o17" to 15, "3.14" to the float written 3.14, and "3" to the
integer 3 (not a float). -/
theorem C2_untagged_ordered_inference :
    (∀ v, visit_untagged_str v = specUntaggedResolve v)
    ∧ visit_untagged_str "123" = .intR 123
    ∧ visit_untagged_str "0x1A" = .intR 26
    ∧ visit_untagged_str "0o17" = .intR 15
    ∧ visit_untagged_str "3.14" = .floatR "3.14"
    ∧ visit_untagged_str "3" = .intR 3
    ∧ visit_untagged_str "~" = .unitR
    ∧ visit_untagged_str "null" = .unitR
    ∧ visit_untagged_str "true" = .boolR true
    ∧ visit_untagged_str "false" = .boolR false :=
  ⟨untagged_eq_spec, by decide, by decide, by decide, by decide, by decide,
   by decide, by decide, by decide, by decide⟩

/-- C3 counterexample: the claim classifies every alias in optional
position as "some"; but the code follows the alias first, and an alias
whose anchor names a plain `~` scalar (the document `[&a ~, *a]`,
position 2) decodes to the none value, not some. -/
theorem C3_alias_none_counterexample :
    deserializeD 10 ⟨[.sequenceStart, .scalar "~" .Plain none, .alias 1, .sequenceEnd],
      [(1, 1), (0, 0)]⟩ 2 (.optionA .anyA) = .ok (.noneV, 3) := rfl

/-- C3 (amended): a scalar is "none" exactly when plain and either
explicitly `!!null`-tagged with text `~`/`null` (other text under that
tag is InvalidValue), or untagged (or carrying an uninterpretable or
non-null tag ⇒ "some") with text `~`/`null`; non-plain scalars are
always "some"; a "some" scalar and a sequence/mapping start decode the
inner value from the same position (no event pre-consumed); an alias is
followed first — the original cursor advancing only past the alias
node — and classified by its referent. -/
theorem C3_option_classification_amended :
    (∀ v tag style, style ≠ TScalarStyle.Plain → optionScalarIsSome v style tag = .ok true)
    ∧ (∀ v, (v = "~" ∨ v = "null") →
        optionScalarIsSome v .Plain (some (.Tag "!!" "null")) = .ok false)
    ∧ (∀ v, ¬(v = "~" ∨ v = "null") →
        optionScalarIsSome v .Plain (some (.Tag "!!" "null")) = .error (.invalidValue v "null"))
    ∧ (∀ v, optionScalarIsSome v .Plain none = .ok ((v != "~") && (v != "null")))
    ∧ (∀ v, optionScalarIsSome v .Plain (some .NonTag) = .ok ((v != "~") && (v != "null")))
    ∧ (∀ v hnd sfx, ¬(hnd = "!!" ∧ sfx = "null") →
        optionScalarIsSome v .Plain (some (.Tag hnd sfx)) = .ok true)
    ∧ (∀ fuel ctx pos inner v style tag,
        peekE ctx pos = .ok (.scalar v style tag) →
        optionScalarIsSome v style tag = .ok true →
        deserialize_option (fuel + 1) ctx pos inner =
          match deserializeD fuel ctx pos inner with
          | .error e => .error e
          | .ok (v', p) => .ok (.someV v', p))
    ∧ (∀ fuel ctx pos inner v style tag,
        peekE ctx pos = .ok (.scalar v style tag) →
        optionScalarIsSome v style tag = .ok false →
        deserialize_option (fuel + 1) ctx pos inner = .ok (.noneV, pos + 1))
    ∧ (∀ fuel ctx pos inner ev, peekE ctx pos = .ok ev →
        (ev = .sequenceStart ∨ ev = .mappingStart) →
        deserialize_option (fuel + 1) ctx pos inner =
          match deserializeD fuel ctx pos inner with
          | .error e => .error e
          | .ok (v', p) => .ok (.someV v', p))
    ∧ (∀ fuel ctx pos inner i, peekE ctx pos = .ok (.alias i) →
        deserialize_option (fuel + 1) ctx pos inner =
          match jump ctx i with
          | .error e => .error e
          | .ok t =>
            match deserialize_option fuel ctx t inner with
            | .error e => .error e
            | .ok (v', _) => .ok (v', pos + 1)) :=
  ⟨fun v tag style h => by simp [optionScalarIsSome, h],
   fun v hv => by simp [optionScalarIsSome, hv],
   fun v hv => by simp [optionScalarIsSome, hv],
   fun v => by simp [optionScalarIsSome],
   fun v => by simp [optionScalarIsSome],
   fun v hnd sfx h => by simp [optionScalarIsSome, h],
   fun fuel ctx pos inner v style tag hpk hs => opt_scalar_some fuel ctx pos inner v style tag hpk hs,
   fun fuel ctx pos inner v style tag hpk hs => opt_scalar_none fuel ctx pos inner v style tag hpk hs,
   fun fuel ctx pos inner ev hpk hev => opt_start_some fuel ctx pos inner ev hpk hev,
   fun fuel ctx pos inner i hpk => opt_alias fuel ctx pos inner i hpk⟩

/-- C3 witness: the amended classification at concrete inputs — a plain
untagged `~` is none and consumed; a plain untagged empty scalar is
some, with the inner decode starting at the same position. -/
theorem C3_option_witness :
    deserialize_option (9 + 1) ⟨[.scalar "~" .Plain none], []⟩ 0 .anyA = .ok (.noneV, 1)
    ∧ deserialize_option (9 + 1) ⟨[.scalar "" .Plain none], []⟩ 0 .anyA =
        match deserializeD 9 ⟨[.scalar "" .Plain none], []⟩ 0 .anyA with
        | .error e => .error e
        | .ok (v', p) => .ok (.someV v', p) :=
  ⟨C3_option_classification_amended.2.2.2.2.2.2.2.1 9 ⟨[.scalar "~" .Plain none], []⟩ 0
      .anyA "~" .Plain none rfl rfl,
   C3_option_classification_amended.2.2.2.2.2.2.1 9 ⟨[.scalar "" .Plain none], []⟩ 0
      .anyA "" .Plain none rfl rfl⟩

/-- C4: a bare scalar names a unit variant; if the selected variant
expects data the decode fails InvalidType contrasting "unit variant"
with the expected kind (newtype/tuple/struct); a singleton mapping
decodes as variant name then content then requires MappingEnd, a
two-key mapping being rejected by the ordinary mapping-length
reconciliation (InvalidLength 2 vs "map containing 1 entry"); a
sequence in enum position fails InvalidType expecting "string or
singleton map". -/
theorem C4_enum_decoding :
    (∀ fuel s, visit_untagged_str s = .strR s →
        deserializeD (fuel + 4) ⟨[.scalar s .Plain none], []⟩ 0 (.enumA [(s, .unitV)]) =
          .ok (.variant s none, 1))
    ∧ (∀ fuel s, visit_untagged_str s = .strR s →
        deserializeD (fuel + 4) ⟨[.scalar s .Plain none], []⟩ 0 (.enumA [(s, .newtypeV)]) =
          .error (.invalidType "unit variant" "newtype variant"))
    ∧ (∀ fuel n s, visit_untagged_str s = .strR s →
        deserializeD (fuel + 4) ⟨[.scalar s .Plain none], []⟩ 0 (.enumA [(s, .tupleV n)]) =
          .error (.invalidType "unit variant" "tuple variant"))
    ∧ (∀ fuel s, visit_untagged_str s = .strR s →
        deserializeD (fuel + 4) ⟨[.scalar s .Plain none], []⟩ 0 (.enumA [(s, .structV)]) =
          .error (.invalidType "unit variant" "struct variant"))
    ∧ (∀ fuel ctx pos variants, peekE ctx pos = .ok .sequenceStart →
        deserialize_enum (fuel + 1) ctx pos variants =
          .error (.invalidType "sequence" "string or singleton map"))
    ∧ deserializeD 30 ⟨[.mappingStart, .scalar "Bar" .Plain none, .scalar "42" .Plain none,
        .mappingEnd], []⟩ 0 (.enumA [("Foo", .unitV), ("Bar", .newtypeV)]) =
        .ok (.variant "Bar" (some (.int 42)), 4)
    ∧ deserializeD 30 ⟨[.mappingStart, .scalar "Bar" .Plain none, .scalar "42" .Plain none,
        .scalar "k" .Plain none, .scalar "v" .Plain none, .mappingEnd], []⟩ 0
        (.enumA [("Foo", .unitV), ("Bar", .newtypeV)]) =
        .error (.invalidLength 2 "map containing 1 entry") :=
  ⟨enum_bare_unit, enum_bare_newtype, enum_bare_tuple, enum_bare_struct,
   fun fuel ctx pos variants hpk => enum_seq_invalid fuel ctx pos variants hpk, rfl, rfl⟩

/-- C4 witness: the bare-scalar and sequence rules at concrete inputs
`Foo` (unit variant), `Bar` (newtype variant), and a sequence event. -/
theorem C4_enum_witness :
    deserializeD (6 + 4) ⟨[.scalar "Foo" .Plain none], []⟩ 0 (.enumA [("Foo", .unitV)]) =
      .ok (.variant "Foo" none, 1)
    ∧ deserializeD (6 + 4) ⟨[.scalar "Bar" .Plain none], []⟩ 0 (.enumA [("Bar", .newtypeV)]) =
      .error (.invalidType "unit variant" "newtype variant")
    ∧ deserialize_enum (9 + 1) ⟨[.sequenceStart, .sequenceEnd], []⟩ 0 [("Foo", .unitV)] =
      .error (.invalidType "sequence" "string or singleton map") :=
  ⟨C4_enum_decoding.1 6 "Foo" rfl, C4_enum_decoding.2.1 6 "Bar" rfl,
   C4_enum_decoding.2.2.2.2.1 9 ⟨[.sequenceStart, .sequenceEnd], []⟩ 0 [("Foo", .unitV)] rfl⟩

/-- C5: a successful drain lands the cursor exactly on the end marker
without shrinking the count; `end_sequence`/`end_mapping` consume that
marker and succeed exactly when the total count matches the acceptor's,
otherwise failing InvalidLength(total) with the "sequence of N
element(s)" / "map containing N entrie(s)" description (singular for
N = 1); a 2-tuple target over 3 elements fails InvalidLength(3), over 1
element InvalidLength(1), and over exactly 2 succeeds. -/
theorem C5_collection_length_reconciliation :
    (∀ ctx fuel pos len total p, drainSeq fuel ctx pos len = .ok (total, p) →
        peekE ctx p = .ok Event.sequenceEnd ∧ len ≤ total)
    ∧ (∀ ctx fuel pos len total p, drainSeq fuel ctx pos len = .ok (total, p) →
        total = len → end_sequence (fuel + 1) ctx pos len = .ok (p + 1))
    ∧ (∀ ctx fuel pos len total p, drainSeq fuel ctx pos len = .ok (total, p) →
        total ≠ len →
        end_sequence (fuel + 1) ctx pos len = .error (.invalidLength total (seqExpected len)))
    ∧ (∀ ctx fuel pos len total p, drainMap fuel ctx pos len = .ok (total, p) →
        peekE ctx p = .ok Event.mappingEnd ∧ len ≤ total)
    ∧ (∀ ctx fuel pos len total p, drainMap fuel ctx pos len = .ok (total, p) →
        total ≠ len →
        end_mapping (fuel + 1) ctx pos len = .error (.invalidLength total (mapExpected len)))
    ∧ seqExpected 1 = "sequence of 1 element"
    ∧ seqExpected 2 = "sequence of 2 elements"
    ∧ mapExpected 1 = "map containing 1 entry"
    ∧ mapExpected 2 = "map containing 2 entries"
    ∧ deserializeD 30 ⟨[.sequenceStart, .scalar "1" .Plain none, .scalar "2" .Plain none,
        .scalar "3" .Plain none, .sequenceEnd], []⟩ 0 (.tupleA 2) =
        .error (.invalidLength 3 "sequence of 2 elements")
    ∧ deserializeD 30 ⟨[.sequenceStart, .scalar "1" .Plain none, .scalar "2" .Plain none,
        .sequenceEnd], []⟩ 0 (.tupleA 2) = .ok (.seq [.int 1, .int 2], 4)
    ∧ deserializeD 30 ⟨[.sequenceStart, .scalar "1" .Plain none, .sequenceEnd], []⟩ 0
        (.tupleA 2) = .error (.invalidLength 1 "a tuple of size 2") :=
  ⟨fun ctx fuel pos len total p h => drainSeq_ok ctx fuel pos len total p h,
   fun ctx fuel pos len total p h heq => by
     rw [end_sequence_of_drain ctx fuel pos len total p h]; simp [heq],
   fun ctx fuel pos len total p h hne => by
     rw [end_sequence_of_drain ctx fuel pos len total p h]; simp [hne],
   fun ctx fuel pos len total p h => drainMap_ok ctx fuel pos len total p h,
   fun ctx fuel pos len total p h hne => by
     rw [end_mapping_of_drain ctx fuel pos len total p h]; simp [hne],
   rfl, rfl, rfl, rfl, rfl, rfl, rfl⟩

/-- C5 witness: the mismatch rule at a concrete stream — one drained
element against a declared count of zero fails InvalidLength(1). -/
theorem C5_witness :
    end_sequence (10 + 1) ⟨[.scalar "1" .Plain none, .sequenceEnd], []⟩ 0 0 =
      .error (.invalidLength 1 (seqExpected 0)) :=
  C5_collection_length_reconciliation.2.2.1 ⟨[.scalar "1" .Plain none, .sequenceEnd], []⟩
    10 0 0 1 1 rfl (by decide)

/-- C6: every decode entry point requires exactly one document — an
empty event list fails EndOfStream, and a successful decode that leaves
events unconsumed fails MoreThanOneDocument instead of returning the
value. -/
theorem C6_single_document :
    (∀ fuel aliases acc, from_str_events fuel [] aliases acc = .error .endOfStream)
    ∧ (∀ fuel events aliases acc v pos,
        deserializeD fuel ⟨events, aliases⟩ 0 acc = .ok (v, pos) →
        pos < events.length →
        from_str_events fuel events aliases acc = .error .moreThanOneDocument)
    ∧ from_str_events 10 [.scalar "1" .Plain none, .scalar "2" .Plain none] [] .anyA =
        .error .moreThanOneDocument
    ∧ from_str_events 10 [.scalar "1" .Plain none] [] .anyA = .ok (.int 1) :=
  ⟨fun _ _ _ => rfl,
   fun fuel events aliases acc v pos hdes hlt =>
     from_str_leftover fuel events aliases acc v pos hdes hlt,
   rfl, rfl⟩

/-- C6 witness: the leftover rule at a concrete two-scalar stream. -/
theorem C6_witness :
    from_str_events 10 [.scalar "a" .Plain none, .scalar "b" .Plain none] [] .anyA =
      .error .moreThanOneDocument :=
  C6_single_document.2.1 10 [.scalar "a" .Plain none, .scalar "b" .Plain none] [] .anyA
    (.str "a") 1 rfl (by decide)

/-- C7: a scalar whose style is not plain always resolves to the string
kind with the verbatim text, whatever the text or tag; in particular a
quoted "123" decodes as the string "123", never an integer. -/
theorem C7_nonplain_scalar_is_string :
    (∀ v tag style, style ≠ TScalarStyle.Plain → resolveScalar v style tag = .ok (.strR v))
    ∧ resolveScalar "123" .DoubleQuoted none = .ok (.strR "123")
    ∧ deserializeD 10 ⟨[.scalar "123" .SingleQuoted none], []⟩ 0 .anyA = .ok (.str "123", 1) :=
  ⟨fun v tag style h => by simp [resolveScalar, h], rfl, rfl⟩

/-- C7 witness: a block-literal scalar with an explicit integer tag
still resolves to the string "123". -/
theorem C7_witness :
    resolveScalar "123" .Literal (some (.Tag "!!" "int")) = .ok (.strR "123") :=
  C7_nonplain_scalar_is_string.1 "123" (some (.Tag "!!" "int")) .Literal (by decide)

/-- C8: a plain scalar with an explicit `!!` core tag parses strictly as
that kind, failing InvalidValue naming the expected kind ("a boolean" /
"an integer" / "a float" / "null") on parse failure; any other explicit
tag (other suffix or other handle) yields the string kind. -/
theorem C8_tagged_scalar_strict :
    (∀ v, parseBool? v = none →
        resolveScalar v .Plain (some (.Tag "!!" "bool")) = .error (.invalidValue v "a boolean"))
    ∧ (∀ v b, parseBool? v = some b →
        resolveScalar v .Plain (some (.Tag "!!" "bool")) = .ok (.boolR b))
    ∧ (∀ v, fromStrRadix? 10 v.data = none →
        resolveScalar v .Plain (some (.Tag "!!" "int")) = .error (.invalidValue v "an integer"))
    ∧ (∀ v n, fromStrRadix? 10 v.data = some n →
        resolveScalar v .Plain (some (.Tag "!!" "int")) = .ok (.intR n))
    ∧ (∀ v, parsesAsF64 v.data = false →
        resolveScalar v .Plain (some (.Tag "!!" "float")) = .error (.invalidValue v "a float"))
    ∧ (∀ v, parsesAsF64 v.data = true →
        resolveScalar v .Plain (some (.Tag "!!" "float")) = .ok (.floatR v))
    ∧ (∀ v, ¬(v = "~" ∨ v = "null") →
        resolveScalar v .Plain (some (.Tag "!!" "null")) = .error (.invalidValue v "null"))
    ∧ (∀ v, (v = "~" ∨ v = "null") →
        resolveScalar v .Plain (some (.Tag "!!" "null")) = .ok .unitR)
    ∧ (∀ v s, s ≠ "bool" → s ≠ "int" → s ≠ "float" → s ≠ "null" →
        resolveScalar v .Plain (some (.Tag "!!" s)) = .ok (.strR v))
    ∧ (∀ v hnd s, hnd ≠ "!!" →
        resolveScalar v .Plain (some (.Tag hnd s)) = .ok (.strR v)) :=
  ⟨fun v h => by simp [resolveScalar, h],
   fun v b h => by simp [resolveScalar, h],
   fun v h => by simp [resolveScalar, h],
   fun v n h => by simp [resolveScalar, h],
   fun v h => by simp [resolveScalar, h],
   fun v h => by simp [resolveScalar, h],
   fun v h => by simp [resolveScalar, h],
   fun v h => by simp [resolveScalar, h],
   fun v s h1 h2 h3 h4 => by simp [resolveScalar, h1, h2, h3, h4],
   fun v hnd s h => by simp [resolveScalar, h]⟩

/-- C8 witness: strict tagged parsing at concrete unparsable texts, a
non-core suffix, and a non-core handle. -/
theorem C8_witness :
    resolveScalar "abc" .Plain (some (.Tag "!!" "bool")) = .error (.invalidValue "abc" "a boolean")
    ∧ resolveScalar "abc" .Plain (some (.Tag "!!" "int")) = .error (.invalidValue "abc" "an integer")
    ∧ resolveScalar "abc" .Plain (some (.Tag "!!" "float")) = .error (.invalidValue "abc" "a float")
    ∧ resolveScalar "x" .Plain (some (.Tag "!!" "null")) = .error (.invalidValue "x" "null")
    ∧ resolveScalar "123" .Plain (some (.Tag "!!" "str")) = .ok (.strR "123")
    ∧ resolveScalar "123" .Plain (some (.Tag "!" "int")) = .ok (.strR "123") :=
  ⟨C8_tagged_scalar_strict.1 "abc" rfl,
   C8_tagged_scalar_strict.2.2.1 "abc" rfl,
   C8_tagged_scalar_strict.2.2.2.2.1 "abc" rfl,
   C8_tagged_scalar_strict.2.2.2.2.2.2.1 "x" (by decide),
   C8_tagged_scalar_strict.2.2.2.2.2.2.2.2.1 "123" "str" (by decide) (by decide) (by decide) (by decide),
   C8_tagged_scalar_strict.2.2.2.2.2.2.2.2.2 "123" "!" "int" (by decide)⟩

/-- C9: the collector records each anchor id at the stream position of
the node it names before appending that node (scalar, sequence-start,
mapping-start); decoding an alias advances the original cursor past only
the alias node and decodes at the anchored position; the document
`[&a x, *a, *a]` decodes with both alias references equal to the
anchored value. -/
theorem C9_alias_indirection :
    (∀ l v style id tag, on_event l (.Scalar v style id tag) =
        ⟨l.events ++ [.scalar v style tag], aliasInsert l.aliases id l.events.length⟩)
    ∧ (∀ l id, on_event l (.SequenceStart id) =
        ⟨l.events ++ [.sequenceStart], aliasInsert l.aliases id l.events.length⟩)
    ∧ (∀ l id, on_event l (.MappingStart id) =
        ⟨l.events ++ [.mappingStart], aliasInsert l.aliases id l.events.length⟩)
    ∧ (∀ fuel ctx pos acc i target, ctx.events[pos]? = some (.alias i) →
        aliasLookup? ctx.aliases i = some target →
        visit (fuel + 1) ctx pos acc =
          match deserializeD fuel ctx target acc with
          | .error e => .error e
          | .ok (v, _) => .ok (v, pos + 1))
    ∧ (loadEvents anchorTwiceDoc).events =
        [.sequenceStart, .scalar "x" .Plain none, .alias 1, .alias 1, .sequenceEnd]
    ∧ (loadEvents anchorTwiceDoc).aliases = [(1, 1), (0, 0)]
    ∧ from_str_events 30 (loadEvents anchorTwiceDoc).events (loadEvents anchorTwiceDoc).aliases
        .anyA = .ok (.seq [.str "x", .str "x", .str "x"]) :=
  ⟨fun _ _ _ _ _ => rfl, fun _ _ => rfl, fun _ _ => rfl,
   fun fuel ctx pos acc i target hpk hlk => visit_alias fuel ctx pos acc i target hpk hlk,
   rfl, rfl, rfl⟩

/-- C9 witness: the alias rule at a concrete stream — an alias at
position 1 jumping back to the scalar at position 0 yields that value
with the cursor advanced only to position 2. -/
theorem C9_witness :
    visit (10 + 1) ⟨[.scalar "y" .Plain none, .alias 3], [(3, 0)]⟩ 1 .anyA =
      .ok (.str "y", 2) := by
  rw [C9_alias_indirection.2.2.2.1 10 ⟨[.scalar "y" .Plain none, .alias 3], [(3, 0)]⟩
    1 .anyA 3 0 rfl rfl]
  rfl

/-- C10: a plain untagged scalar with empty text falls through every
inference rule (not null, not a boolean, no integer or float parse) and
decodes as the empty string; for an optional target it is classified
"some". -/
theorem C10_empty_plain_scalar :
    visit_untagged_str "" = .strR ""
    ∧ ¬("" = "~" ∨ "" = "null")
    ∧ parseBool? "" = none
    ∧ fromStrRadix? 10 "".data = none
    ∧ parsesAsF64 "".data = false
    ∧ optionScalarIsSome "" .Plain none = .ok true
    ∧ deserializeD 10 ⟨[.scalar "" .Plain none], []⟩ 0 (.optionA .anyA) =
        .ok (.someV (.str ""), 1) :=
  ⟨by decide, by decide, by decide, by decide, by decide, rfl, rfl⟩

end Yaml
